import Mathlib

/-!
Shallow embedding of `src/launcher/ui/java/InstallJavaDialog.cpp` from
miopowered/MioLauncher.

The file is a Qt dialog: an `InstallLoaderPage` per Java vendor (each holding a
major-version select widget and a java-version select widget), wrapped in a
`Java::InstallDialog` with a Refresh button and an Ok/Cancel button box whose
Ok button is relabelled "Download".  External collaborators (Qt widgets, the
metadata index, the download tasks, the filesystem helpers) are modelled as
abstract state and recorded effects; the control flow of the dialog file
itself is translated line by line into pure state-transition functions.
-/

/-- Modelled from the spec: the `Java::DownloadType` flag lives in the external
`java/JavaMetadata.h` header, not in this file; the spec describes "two
download-task constructors selected by a checksum/download-type flag", so the
flag is modelled with exactly the two alternatives the dispatch switch names. -/
inductive DownloadType
  | Manifest
  | Archive
deriving DecidableEq, Repr

namespace Java

/-- Modelled from the spec: `Java::Metadata` is external to this file; it carries
the fields the dialog reads (`m_name`, `url`, `checksumType`, `checksumHash`,
`downloadType`). -/
structure Metadata where
  m_name : String
  url : String
  checksumType : String
  checksumHash : String
  downloadType : DownloadType
deriving DecidableEq, Repr

end Java

/-- Abstract content of an external `Meta::Version` (only its identity matters
to this file). -/
structure MetaVersion where
  descriptor : String
deriving DecidableEq, Repr

/-- A `BaseVersion` object, as seen through `dynamic_pointer_cast`: it is either
a `Meta::Version`, a `Java::Metadata`, or some other subclass. -/
inductive BaseVersion
  | metaVersion (v : MetaVersion)
  | javaMetadata (m : Java.Metadata)
  | otherVersion
deriving DecidableEq, Repr

/-- `std::dynamic_pointer_cast<Meta::Version>` on a possibly-null
`BaseVersion::Ptr`: null and wrong-subclass pointers cast to null. -/
def castMetaVersion : Option BaseVersion → Option MetaVersion
  | some (BaseVersion.metaVersion v) => some v
  | _ => none

/-- `std::dynamic_pointer_cast<Java::Metadata>` on a non-null `BaseVersion`. -/
def castJavaMetadata : BaseVersion → Option Java.Metadata
  | BaseVersion.javaMetadata m => some m
  | _ => none

/-- The `BaseVersionList` roles named at line 74 of the source. -/
inductive Role
  | VersionRole
  | RecommendedRole
  | VersionPointerRole
deriving DecidableEq, Repr

/-- Abstract state of an external `Meta::VersionList` (the catalog returned by
the metadata index): its uid and the roles set by `setProvidedRoles`. -/
structure MetaVersionList where
  uid : String
  providedRoles : List Role
deriving DecidableEq, Repr

/-- The list a `VersionSelectWidget` can be initialized with: either a
`Meta::VersionList` catalog or a `Java::VersionList` built from a selected
major version. -/
inductive WidgetList
  | metaList (vl : MetaVersionList)
  | javaList (v : MetaVersion)
deriving DecidableEq, Repr

/-- Abstract state of an external `VersionSelectWidget`: the list it was last
initialized with, its currently selected version, whether `selectCurrent` /
`selectSearch` were invoked, and how many times `loadList` ran. -/
structure VersionSelectWidget where
  initializedList : Option WidgetList := none
  selectedVersion : Option BaseVersion := none
  currentSelected : Bool := false
  searchSelected : Bool := false
  loadCount : Nat := 0
deriving DecidableEq, Repr

/-- `VersionSelectWidget::initialize(list)`. -/
def VersionSelectWidget.initializeWith (w : VersionSelectWidget) (l : WidgetList) :
    VersionSelectWidget :=
  { w with initializedList := some l }

/-- `VersionSelectWidget::selectCurrent()`. -/
def VersionSelectWidget.selectCurrent (w : VersionSelectWidget) : VersionSelectWidget :=
  { w with currentSelected := true }

/-- `VersionSelectWidget::selectSearch()`. -/
def VersionSelectWidget.selectSearch (w : VersionSelectWidget) : VersionSelectWidget :=
  { w with searchSelected := true }

/-- `VersionSelectWidget::loadList()` (a reload; recorded as a counter). -/
def VersionSelectWidget.loadList (w : VersionSelectWidget) : VersionSelectWidget :=
  { w with loadCount := w.loadCount + 1 }

/-- State of an `InstallLoaderPage` (lines 37-130): its identity strings, the
`loaded` flag, and its two version-select widgets. -/
structure InstallLoaderPage where
  uid : String
  iconName : String
  name : String
  loaded : Bool := false
  majorVersionSelect : VersionSelectWidget := {}
  javaVersionSelect : VersionSelectWidget := {}
deriving DecidableEq, Repr

/-- The `InstallLoaderPage` constructor (lines 41-63): stores the identity
strings, creates the two widgets and calls `selectCurrent` on the major one.
(The translator-visible empty strings set on the widgets carry no behavior and
are elided.) -/
def newInstallLoaderPage (id iconName name : String) : InstallLoaderPage :=
  { uid := id, iconName := iconName, name := name, loaded := false,
    majorVersionSelect := { currentSelected := true },
    javaVersionSelect := {} }

/-- The role list passed to `setProvidedRoles` at line 74. -/
def javaProvidedRoles : List Role :=
  [Role.VersionRole, Role.RecommendedRole, Role.VersionPointerRole]

/-- `InstallLoaderPage::initialize(vlist)` (lines 72-76): sets the provided
roles on the catalog and initializes the major version widget with it. -/
def InstallLoaderPage.initializeList (p : InstallLoaderPage) (vlist : MetaVersionList) :
    InstallLoaderPage :=
  { p with majorVersionSelect := (p.majorVersionSelect.initializeWith
      (WidgetList.metaList { vlist with providedRoles := javaProvidedRoles })) }

/-- `InstallLoaderPage::setSelectedVersion(version)` (lines 78-86): when the
version dynamic-casts to `Meta::Version`, initialize the java version widget
with a new `Java::VersionList` built from it and select its current entry;
otherwise return early. -/
def InstallLoaderPage.setSelectedVersion (p : InstallLoaderPage)
    (version : Option BaseVersion) : InstallLoaderPage :=
  match castMetaVersion version with
  | none => p
  | some dcast =>
    { p with javaVersionSelect :=
        (p.javaVersionSelect.initializeWith (WidgetList.javaList dcast)).selectCurrent }

/-- `InstallLoaderPage::openedImpl()` (lines 92-103), with the external
`APPLICATION->metadataIndex()->get` modelled as a lookup function. -/
def openedImpl (index : String → Option MetaVersionList) (p : InstallLoaderPage) :
    InstallLoaderPage :=
  if p.loaded then p
  else
    match index p.uid with
    | none => p
    | some versions => { p.initializeList versions with loaded := true }

/-- `InstallLoaderPage::selectedVersion()` (line 111). -/
def InstallLoaderPage.selectedVersion (p : InstallLoaderPage) : Option BaseVersion :=
  p.javaVersionSelect.selectedVersion

/-- `InstallLoaderPage::selectSearch()` (line 112). -/
def InstallLoaderPage.selectSearch (p : InstallLoaderPage) : InstallLoaderPage :=
  { p with javaVersionSelect := p.javaVersionSelect.selectSearch }

/-- `InstallLoaderPage::loadList()` (lines 113-117): reload both widgets. -/
def InstallLoaderPage.loadList (p : InstallLoaderPage) : InstallLoaderPage :=
  { p with majorVersionSelect := p.majorVersionSelect.loadList,
           javaVersionSelect := p.javaVersionSelect.loadList }

/-- A direct recording of the java-widget selection changing on a page (the
widget-level event behind the page-level `selectedVersionChanged` signal,
line 60). -/
def InstallLoaderPage.setJavaSelection (p : InstallLoaderPage)
    (v : Option BaseVersion) : InstallLoaderPage :=
  { p with javaVersionSelect := { p.javaVersionSelect with selectedVersion := v } }

/-- Apply `f` to the element at index `i`, leaving every other element alone
(the effect of mutating one page object in the container's page list). -/
def modifyPage (f : InstallLoaderPage → InstallLoaderPage) :
    Nat → List InstallLoaderPage → List InstallLoaderPage
  | _, [] => []
  | 0, p :: ps => f p :: ps
  | Nat.succ n, p :: ps => p :: modifyPage f n ps

/-- `Qt::WindowModality` values relevant here. -/
inductive WindowModality
  | NonModal
  | WindowModal
  | ApplicationModal
deriving DecidableEq, Repr

/-- Modelled from the spec: `FS::PathCombine` is an external filesystem helper;
modelled as concatenation with a path separator.  Only the fact that the same
combined path is used consistently matters to the claims. -/
def PathCombine (a b : String) : String := a ++ "/" ++ b

/-- `FS::deletePath(path)`, recorded as an effect. -/
inductive UIAction
  | deletePath (path : String)
deriving DecidableEq, Repr

/-- The two download task classes the dispatch can construct. -/
inductive TaskKind
  | ManifestDownloadTask
  | ArchiveDownloadTask
deriving DecidableEq, Repr

/-- The constructor arguments of a dispatched download task (lines 214/217). -/
structure DownloadTask where
  kind : TaskKind
  url : String
  path : String
  checksumType : String
  checksumHash : String
deriving DecidableEq, Repr

/-- A dispatched task together with everything `done` attaches to it: the
failure/abort handlers (lines 220-222) and the progress-dialog execution with
its skip button (lines 223-225). -/
structure TaskRun where
  task : DownloadTask
  onFailed : List UIAction
  onAborted : List UIAction
  skipButtonEnabled : Bool
  skipButtonText : String
  executed : Bool
deriving DecidableEq, Repr

/-- `QDialog::Accepted`. -/
def QDialogAccepted : Int := 1

namespace Java

/-- State of `Java::InstallDialog` (lines 140-231): the container's page list
and selected page index, the Ok button state and text, and the window
properties set by the constructor. -/
structure InstallDialog where
  pages : List InstallLoaderPage
  selectedPageIdx : Nat
  okEnabled : Bool
  okText : String
  windowTitle : String
  windowModality : WindowModality
  width : Nat
  height : Nat
deriving DecidableEq, Repr

/-- `Java::InstallDialog::getPages()` (lines 181-191). -/
def getPages : List InstallLoaderPage :=
  [ newInstallLoaderPage "net.minecraft.java" "" "Mojang",
    newInstallLoaderPage "net.adoptium.java" "" "Adoptium",
    newInstallLoaderPage "com.azul.java" "" "Azul" ]

/-- `Java::InstallDialog::dialogTitle()` (lines 193-196). -/
def dialogTitle : String := "Install Loader"

/-- `PageContainer::selectedPage()`, as the page at the selected index. -/
def InstallDialog.selectedPage (d : InstallDialog) : Option InstallLoaderPage :=
  d.pages[d.selectedPageIdx]?

/-- `Java::InstallDialog::validate(page)` (lines 198-201): the Ok button is
enabled exactly when the page's selected version is non-null. -/
def InstallDialog.validate (d : InstallDialog) (page : InstallLoaderPage) :
    InstallDialog :=
  { d with okEnabled := page.selectedVersion.isSome }

/-- The `Java::InstallDialog` constructor (lines 140-179): builds the pages,
relabels Ok as "Download", sets title/modality/size, selects the page whose id
matches `uid` (the container default being the first page), calls
`selectSearch` on the selected page and finally `validate` on it. -/
def mkInstallDialog (uid : String) : InstallDialog :=
  let pages := getPages
  let selIdx := pages.enum.foldl (fun acc ip => if ip.2.uid = uid then ip.1 else acc) 0
  let pages2 := modifyPage InstallLoaderPage.selectSearch selIdx pages
  let d : InstallDialog :=
    { pages := pages2, selectedPageIdx := selIdx, okEnabled := true,
      okText := "Download", windowTitle := dialogTitle,
      windowModality := WindowModality.WindowModal, width := 840, height := 480 }
  d.validate (pages2.getD selIdx (newInstallLoaderPage "" "" ""))

/-- The handler connected to each page's `selectedVersionChanged` signal
(lines 171-174), preceded by the widget-level selection change on the emitting
page `i` that raised the signal: validate runs only when the emitting page's
id equals the selected page's id. -/
def InstallDialog.selectedVersionChangedEvent (d : InstallDialog) (i : Nat)
    (v : Option BaseVersion) : InstallDialog :=
  let d2 := { d with pages := modifyPage (fun p => p.setJavaSelection v) i d.pages }
  match d2.pages[i]?, d2.selectedPage with
  | some emitter, some sel =>
    if emitter.uid = sel.uid then d2.validate sel else d2
  | _, _ => d2

/-- The handler connected to `PageContainer::selectedPageChanged` (line 176):
the container switches to page `j` and `validate` runs on the new current
page. -/
def InstallDialog.selectedPageChangedEvent (d : InstallDialog) (j : Nat) :
    InstallDialog :=
  let d2 := { d with selectedPageIdx := j }
  match d2.selectedPage with
  | some cur => d2.validate cur
  | none => d2

/-- The Refresh button handler (line 151): `loadList` on the selected page. -/
def InstallDialog.refreshClicked (d : InstallDialog) : InstallDialog :=
  { d with pages := modifyPage InstallLoaderPage.loadList d.selectedPageIdx d.pages }

/-- The task construction and wiring of `done` (lines 210-225) once a
`Java::Metadata` has been obtained: build the destination path, pick the task
class by `downloadType`, attach the delete-path handlers to `failed` and
`aborted`, and run the task through a progress dialog with an "Abort" skip
button. -/
def dispatchTask (javaPath : String) (meta : Java.Metadata) : TaskRun :=
  let final_path := PathCombine javaPath meta.m_name
  let task : DownloadTask :=
    match meta.downloadType with
    | DownloadType.Manifest =>
      { kind := TaskKind.ManifestDownloadTask, url := meta.url, path := final_path,
        checksumType := meta.checksumType, checksumHash := meta.checksumHash }
    | DownloadType.Archive =>
      { kind := TaskKind.ArchiveDownloadTask, url := meta.url, path := final_path,
        checksumType := meta.checksumType, checksumHash := meta.checksumHash }
  { task := task,
    onFailed := [UIAction.deletePath final_path],
    onAborted := [UIAction.deletePath final_path],
    skipButtonEnabled := true, skipButtonText := "Abort", executed := true }

/-- The conditional task dispatch of `Java::InstallDialog::done`
(lines 205-228): a task is built and run precisely when the result is
`Accepted`, the selected page has a non-null selected version, and that
version casts to `Java::Metadata`. -/
def InstallDialog.doneTask (d : InstallDialog) (javaPath : String) (result : Int) :
    Option TaskRun :=
  if result = QDialogAccepted then
    match d.selectedPage with
    | some page =>
      match page.selectedVersion with
      | some v =>
        match castJavaMetadata v with
        | some meta => some (dispatchTask javaPath meta)
        | none => none
      | none => none
    | none => none
  else none

/-- `Java::InstallDialog::done(result)` (lines 203-231): the optional task
dispatch, followed unconditionally by `QDialog::done(result)` (the second
component records the argument passed to the base-class `done`). -/
def InstallDialog.done (d : InstallDialog) (javaPath : String) (result : Int) :
    Option TaskRun × Int :=
  (d.doneTask javaPath result, result)

end Java

/-! ### Helper lemmas about `modifyPage` -/

theorem modifyPage_getElem?_self (f : InstallLoaderPage → InstallLoaderPage) :
    ∀ (i : Nat) (l : List InstallLoaderPage), (modifyPage f i l)[i]? = (l[i]?).map f
  | _, [] => by simp [modifyPage]
  | 0, p :: ps => by simp [modifyPage]
  | Nat.succ n, p :: ps => by
    simp [modifyPage, modifyPage_getElem?_self f n ps]

theorem modifyPage_getElem?_other (f : InstallLoaderPage → InstallLoaderPage) :
    ∀ (i j : Nat) (l : List InstallLoaderPage), i ≠ j →
      (modifyPage f i l)[j]? = l[j]?
  | _, _, [], _ => by simp [modifyPage]
  | 0, 0, p :: ps, h => absurd rfl h
  | 0, Nat.succ m, p :: ps, _ => by simp [modifyPage]
  | Nat.succ n, 0, p :: ps, _ => by simp [modifyPage]
  | Nat.succ n, Nat.succ m, p :: ps, h => by
    have h2 : n ≠ m := fun e => h (by rw [e])
    simp [modifyPage, modifyPage_getElem?_other f n m ps h2]

theorem modifyPage_length (f : InstallLoaderPage → InstallLoaderPage) :
    ∀ (i : Nat) (l : List InstallLoaderPage), (modifyPage f i l).length = l.length
  | _, [] => by simp [modifyPage]
  | 0, p :: ps => by simp [modifyPage]
  | Nat.succ n, p :: ps => by
    simp [modifyPage, modifyPage_length f n ps]

/-! ### Claim theorems -/

/-- C1: `validate` sets the Ok button (relabelled "Download" by the
constructor) enabled exactly when the validated page's `selectedVersion()` is
non-null. -/
theorem validate_download_iff (d : Java.InstallDialog) (page : InstallLoaderPage)
    (uid : String) :
    ((d.validate page).okEnabled = true ↔ page.selectedVersion ≠ none)
    ∧ (Java.mkInstallDialog uid).okText = "Download" := by
  constructor
  · simp [Java.InstallDialog.validate, Option.isSome_iff_ne_none]
  · rfl

/-- C6: the `Java::InstallDialog` constructor sets the window modality to
`Qt::WindowModal`, so the dialog blocks its parent window while open. -/
theorem installDialog_windowModal (uid : String) :
    (Java.mkInstallDialog uid).windowModality = WindowModality.WindowModal := rfl

/-- C7: `setSelectedVersion` initializes the java version widget with a new
`Java::VersionList` built from the newly selected major version and selects
its current entry, but only when the version casts to `Meta::Version`; when
the cast fails the page is left entirely unchanged. -/
theorem setSelectedVersion_cases (p : InstallLoaderPage)
    (version : Option BaseVersion) :
    (castMetaVersion version = none → p.setSelectedVersion version = p)
    ∧ (∀ dcast, castMetaVersion version = some dcast →
        (p.setSelectedVersion version).javaVersionSelect.initializedList
            = some (WidgetList.javaList dcast)
        ∧ (p.setSelectedVersion version).javaVersionSelect.currentSelected = true
        ∧ (p.setSelectedVersion version).majorVersionSelect = p.majorVersionSelect
        ∧ (p.setSelectedVersion version).uid = p.uid
        ∧ (p.setSelectedVersion version).loaded = p.loaded) := by
  constructor
  · intro h
    simp [InstallLoaderPage.setSelectedVersion, h]
  · intro dcast h
    simp [InstallLoaderPage.setSelectedVersion, h, VersionSelectWidget.initializeWith,
      VersionSelectWidget.selectCurrent]

/-- Witness for C7 at a concrete page and a concrete `Meta::Version`. -/
theorem setSelectedVersion_cases_witness :
    ((newInstallLoaderPage "net.adoptium.java" "" "Adoptium").setSelectedVersion
        (some (BaseVersion.metaVersion { descriptor := "17" }))).javaVersionSelect.initializedList
      = some (WidgetList.javaList { descriptor := "17" })
    ∧ ((newInstallLoaderPage "net.adoptium.java" "" "Adoptium").setSelectedVersion
        (some (BaseVersion.metaVersion { descriptor := "17" }))).javaVersionSelect.currentSelected = true
    ∧ ((newInstallLoaderPage "net.adoptium.java" "" "Adoptium").setSelectedVersion
        (some (BaseVersion.metaVersion { descriptor := "17" }))).majorVersionSelect
      = (newInstallLoaderPage "net.adoptium.java" "" "Adoptium").majorVersionSelect
    ∧ ((newInstallLoaderPage "net.adoptium.java" "" "Adoptium").setSelectedVersion
        (some (BaseVersion.metaVersion { descriptor := "17" }))).uid
      = (newInstallLoaderPage "net.adoptium.java" "" "Adoptium").uid
    ∧ ((newInstallLoaderPage "net.adoptium.java" "" "Adoptium").setSelectedVersion
        (some (BaseVersion.metaVersion { descriptor := "17" }))).loaded
      = (newInstallLoaderPage "net.adoptium.java" "" "Adoptium").loaded :=
  (setSelectedVersion_cases (newInstallLoaderPage "net.adoptium.java" "" "Adoptium")
    (some (BaseVersion.metaVersion { descriptor := "17" }))).2
    { descriptor := "17" } rfl

/-- C8: `openedImpl` initializes the major version list at most once: a call
with `loaded` already true is a no-op; a call in which the metadata-index
lookup fails leaves the page (and `loaded`) unchanged; a call in which the
lookup succeeds sets `loaded`, after which a further call is the identity. -/
theorem openedImpl_once (index : String → Option MetaVersionList)
    (p : InstallLoaderPage) :
    (p.loaded = true → openedImpl index p = p)
    ∧ (p.loaded = false → index p.uid = none →
        openedImpl index p = p ∧ (openedImpl index p).loaded = false)
    ∧ (p.loaded = false → ∀ vl, index p.uid = some vl →
        (openedImpl index p).loaded = true
        ∧ openedImpl index (openedImpl index p) = openedImpl index p) := by
  refine ⟨?_, ?_, ?_⟩
  · intro h
    simp [openedImpl, h]
  · intro h hn
    constructor <;> simp [openedImpl, h, hn]
  · intro h vl hvl
    have h1 : openedImpl index p = { p.initializeList vl with loaded := true } := by
      simp [openedImpl, h, hvl]
    constructor
    · rw [h1]
    · rw [h1]
      simp [openedImpl]

/-- A sample metadata index used to instantiate hypotheses at concrete
values. -/
def sampleIndex : String → Option MetaVersionList :=
  fun s => some { uid := s, providedRoles := [] }

/-- Witness for C8: on a fresh Mojang page with a successful lookup, `loaded`
becomes true and a second `openedImpl` is the identity. -/
theorem openedImpl_once_witness :
    (openedImpl sampleIndex (newInstallLoaderPage "net.minecraft.java" "" "Mojang")).loaded = true
    ∧ openedImpl sampleIndex
        (openedImpl sampleIndex (newInstallLoaderPage "net.minecraft.java" "" "Mojang"))
      = openedImpl sampleIndex (newInstallLoaderPage "net.minecraft.java" "" "Mojang") :=
  (openedImpl_once sampleIndex (newInstallLoaderPage "net.minecraft.java" "" "Mojang")).2.2
    rfl { uid := "net.minecraft.java", providedRoles := [] } rfl

/-- A concrete `Java::Metadata` used to instantiate the `done` claims. -/
def sampleMeta : Java.Metadata :=
  { m_name := "java-runtime-17", url := "u1", checksumType := "sha256",
    checksumHash := "h1", downloadType := DownloadType.Manifest }

/-- A concrete page whose java version widget has `sampleMeta` selected. -/
def samplePage : InstallLoaderPage :=
  { newInstallLoaderPage "net.adoptium.java" "" "Adoptium" with
      javaVersionSelect := { selectedVersion := some (BaseVersion.javaMetadata sampleMeta) } }

/-- A concrete dialog whose selected page is `samplePage`. -/
def sampleDialog : Java.InstallDialog :=
  { Java.mkInstallDialog "net.adoptium.java" with
      pages := [samplePage], selectedPageIdx := 0 }

/-- C2: when `done` dispatches for a version that casts to `Java::Metadata`,
the task is chosen by `downloadType` between exactly the two task classes —
`ManifestDownloadTask` for `Manifest`, `ArchiveDownloadTask` for `Archive` —
and is constructed from the metadata's url, the destination path, the
checksum type and the checksum hash. -/
theorem done_task_dispatch (d : Java.InstallDialog) (javaPath : String)
    (result : Int) (page : InstallLoaderPage) (v : BaseVersion) (meta : Java.Metadata)
    (hp : d.selectedPage = some page) (hv : page.selectedVersion = some v)
    (hm : castJavaMetadata v = some meta) (hr : result = QDialogAccepted) :
    ∃ tr, (d.done javaPath result).1 = some tr
      ∧ tr.task.url = meta.url
      ∧ tr.task.path = PathCombine javaPath meta.m_name
      ∧ tr.task.checksumType = meta.checksumType
      ∧ tr.task.checksumHash = meta.checksumHash
      ∧ (tr.task.kind = TaskKind.ManifestDownloadTask
          ↔ meta.downloadType = DownloadType.Manifest)
      ∧ (tr.task.kind = TaskKind.ArchiveDownloadTask
          ↔ meta.downloadType = DownloadType.Archive) := by
  refine ⟨Java.dispatchTask javaPath meta, ?_, ?_⟩
  · simp [Java.InstallDialog.done, Java.InstallDialog.doneTask, hr, hp, hv, hm]
  · cases hdt : meta.downloadType <;> simp [Java.dispatchTask, hdt]

/-- Witness for C2, at `sampleDialog` with result `Accepted`. -/
theorem done_task_dispatch_witness :
    ∃ tr, (sampleDialog.done "javas" 1).1 = some tr
      ∧ tr.task.url = sampleMeta.url
      ∧ tr.task.path = PathCombine "javas" sampleMeta.m_name
      ∧ tr.task.checksumType = sampleMeta.checksumType
      ∧ tr.task.checksumHash = sampleMeta.checksumHash
      ∧ (tr.task.kind = TaskKind.ManifestDownloadTask
          ↔ sampleMeta.downloadType = DownloadType.Manifest)
      ∧ (tr.task.kind = TaskKind.ArchiveDownloadTask
          ↔ sampleMeta.downloadType = DownloadType.Archive) :=
  done_task_dispatch sampleDialog "javas" 1 samplePage
    (BaseVersion.javaMetadata sampleMeta) sampleMeta rfl rfl rfl rfl

/-- C3: the task dispatched by `done` gets exactly one failure handler and one
abort handler, both deleting exactly the destination path the task was
constructed to download to. -/
theorem done_failure_cleanup (d : Java.InstallDialog) (javaPath : String)
    (result : Int) (page : InstallLoaderPage) (v : BaseVersion) (meta : Java.Metadata)
    (hp : d.selectedPage = some page) (hv : page.selectedVersion = some v)
    (hm : castJavaMetadata v = some meta) (hr : result = QDialogAccepted) :
    ∃ tr, (d.done javaPath result).1 = some tr
      ∧ tr.task.path = PathCombine javaPath meta.m_name
      ∧ tr.onFailed = [UIAction.deletePath tr.task.path]
      ∧ tr.onAborted = [UIAction.deletePath tr.task.path] := by
  refine ⟨Java.dispatchTask javaPath meta, ?_, ?_⟩
  · simp [Java.InstallDialog.done, Java.InstallDialog.doneTask, hr, hp, hv, hm]
  · cases hdt : meta.downloadType <;> simp [Java.dispatchTask, hdt]

/-- Witness for C3, at `sampleDialog` with result `Accepted`. -/
theorem done_failure_cleanup_witness :
    ∃ tr, (sampleDialog.done "javas" 1).1 = some tr
      ∧ tr.task.path = PathCombine "javas" sampleMeta.m_name
      ∧ tr.onFailed = [UIAction.deletePath tr.task.path]
      ∧ tr.onAborted = [UIAction.deletePath tr.task.path] :=
  done_failure_cleanup sampleDialog "javas" 1 samplePage
    (BaseVersion.javaMetadata sampleMeta) sampleMeta rfl rfl rfl rfl

/-- C4: `done` always finishes by passing its `result` to `QDialog::done`,
and a task is dispatched (run through a progress dialog with an "Abort" skip
button) precisely when the result is `Accepted`, the selected page has a
selected version, and that version casts to `Java::Metadata`. -/
theorem done_always_closes (d : Java.InstallDialog) (javaPath : String)
    (result : Int) :
    ((d.done javaPath result).2 = result)
    ∧ ((∃ tr, (d.done javaPath result).1 = some tr ∧ tr.executed = true
          ∧ tr.skipButtonEnabled = true ∧ tr.skipButtonText = "Abort")
        ↔ (result = QDialogAccepted
            ∧ ∃ page v meta, d.selectedPage = some page
                ∧ page.selectedVersion = some v ∧ castJavaMetadata v = some meta)) := by
  refine ⟨rfl, ?_⟩
  by_cases hr : result = QDialogAccepted
  · rcases hsel : d.selectedPage with _ | page
    · simp [Java.InstallDialog.done, Java.InstallDialog.doneTask, hr, hsel]
    · rcases hv : page.selectedVersion with _ | v
      · simp [Java.InstallDialog.done, Java.InstallDialog.doneTask, hr, hsel, hv]
      · rcases hm : castJavaMetadata v with _ | meta
        · simp [Java.InstallDialog.done, Java.InstallDialog.doneTask, hr, hsel, hv, hm]
        · constructor
          · intro _
            exact ⟨hr, page, v, meta, rfl, hv, hm⟩
          · intro _
            refine ⟨Java.dispatchTask javaPath meta, ?_, rfl, rfl, rfl⟩
            simp [Java.InstallDialog.done, Java.InstallDialog.doneTask, hr, hsel, hv, hm]
  · simp [Java.InstallDialog.done, Java.InstallDialog.doneTask, hr]

/-- `openedImpl` consults the metadata index only at the page's own uid. -/
theorem openedImpl_index_congr (i1 i2 : String → Option MetaVersionList)
    (p : InstallLoaderPage) (h : i1 p.uid = i2 p.uid) :
    openedImpl i1 p = openedImpl i2 p := by
  unfold openedImpl
  rw [h]

/-- C5: `getPages` returns exactly three vendor pages, in order Mojang,
Adoptium, Azul, with uids `net.minecraft.java`, `net.adoptium.java`,
`com.azul.java`; and each page's `openedImpl` obtains its catalog from the
metadata index keyed by that page's own vendor identifier (it depends on the
index only through its value at that uid, and a successful lookup is what the
major version widget is initialized from). -/
theorem getPages_vendor_catalogs :
    Java.getPages.length = 3
    ∧ Java.getPages.map InstallLoaderPage.uid
        = ["net.minecraft.java", "net.adoptium.java", "com.azul.java"]
    ∧ Java.getPages.map InstallLoaderPage.name = ["Mojang", "Adoptium", "Azul"]
    ∧ (∀ i1 i2 : String → Option MetaVersionList, ∀ p ∈ Java.getPages,
        i1 p.uid = i2 p.uid → openedImpl i1 p = openedImpl i2 p)
    ∧ (∀ index : String → Option MetaVersionList, ∀ p ∈ Java.getPages, ∀ vl,
        index p.uid = some vl →
          (openedImpl index p).majorVersionSelect.initializedList
            = some (WidgetList.metaList { vl with providedRoles := javaProvidedRoles })) := by
  refine ⟨rfl, rfl, rfl, ?_, ?_⟩
  · intro i1 i2 p _ h
    exact openedImpl_index_congr i1 i2 p h
  · intro index p hp vl h
    have hl : p.loaded = false := by
      simp only [Java.getPages, List.mem_cons, List.not_mem_nil, or_false] at hp
      rcases hp with rfl | rfl | rfl <;> rfl
    simp [openedImpl, hl, h, InstallLoaderPage.initializeList,
      VersionSelectWidget.initializeWith]

/-- Witness for C5: the Mojang page with a concrete index that succeeds at
its uid. -/
theorem getPages_vendor_catalogs_witness :
    (openedImpl sampleIndex (newInstallLoaderPage "net.minecraft.java" "" "Mojang")).majorVersionSelect.initializedList
      = some (WidgetList.metaList
          { uid := "net.minecraft.java", providedRoles := javaProvidedRoles }) :=
  getPages_vendor_catalogs.2.2.2.2 sampleIndex
    (newInstallLoaderPage "net.minecraft.java" "" "Mojang") (by simp [Java.getPages])
    { uid := "net.minecraft.java", providedRoles := [] } rfl

/-- C9: a `selectedVersionChanged` signal emitted by a page other than the
currently selected one (page ids being pairwise distinct, as `getPages`
builds them) leaves the Download button's enabled state unchanged; when the
emitter is the selected page, `validate` re-runs and tracks the new
selection; and when the selected page itself changes, `validate` re-runs on
the new current page. -/
theorem selectedVersionChanged_frame (d : Java.InstallDialog) (i : Nat)
    (v : Option BaseVersion)
    (hnodup : (d.pages.map InstallLoaderPage.uid).Nodup)
    (hi : i < d.pages.length) (hs : d.selectedPageIdx < d.pages.length)
    (hne : i ≠ d.selectedPageIdx) :
    (d.selectedVersionChangedEvent i v).okEnabled = d.okEnabled
    ∧ (d.selectedVersionChangedEvent d.selectedPageIdx v).okEnabled = v.isSome
    ∧ (d.selectedPageChangedEvent i).okEnabled
        = (d.pages[i]).selectedVersion.isSome := by
  have hpi : d.pages[i]? = some d.pages[i] := List.getElem?_eq_getElem hi
  have hps : d.pages[d.selectedPageIdx]? = some d.pages[d.selectedPageIdx] :=
    List.getElem?_eq_getElem hs
  have huid : (d.pages[i]).uid ≠ (d.pages[d.selectedPageIdx]).uid := by
    intro e
    apply hne
    have e2 : (d.pages.map InstallLoaderPage.uid).get ⟨i, by simpa using hi⟩
        = (d.pages.map InstallLoaderPage.uid).get ⟨d.selectedPageIdx, by simpa using hs⟩ := by
      simpa using e
    exact congrArg Fin.val (hnodup.get_inj_iff.mp e2)
  refine ⟨?_, ?_, ?_⟩
  · unfold Java.InstallDialog.selectedVersionChangedEvent Java.InstallDialog.selectedPage
    simp only [modifyPage_getElem?_self, modifyPage_getElem?_other _ _ _ _ hne,
      hpi, hps, Option.map_some']
    simp [InstallLoaderPage.setJavaSelection, huid, Java.InstallDialog.validate]
  · unfold Java.InstallDialog.selectedVersionChangedEvent Java.InstallDialog.selectedPage
    simp only [modifyPage_getElem?_self, hps, Option.map_some']
    simp [InstallLoaderPage.setJavaSelection, Java.InstallDialog.validate,
      InstallLoaderPage.selectedVersion]
  · unfold Java.InstallDialog.selectedPageChangedEvent Java.InstallDialog.selectedPage
    simp only [hpi]
    simp [Java.InstallDialog.validate, InstallLoaderPage.selectedVersion]

/-- A concrete two-page dialog; its second page has a version selected. -/
def twoPageDialog : Java.InstallDialog :=
  { pages := [newInstallLoaderPage "a" "" "A",
      { newInstallLoaderPage "b" "" "B" with
          javaVersionSelect := { selectedVersion := some BaseVersion.otherVersion } }],
    selectedPageIdx := 0, okEnabled := false, okText := "Download",
    windowTitle := "t", windowModality := WindowModality.WindowModal,
    width := 840, height := 480 }

/-- Witness for C9 at `twoPageDialog`, with the non-selected page emitting. -/
theorem selectedVersionChanged_frame_witness :
    (twoPageDialog.selectedVersionChangedEvent 1 none).okEnabled = twoPageDialog.okEnabled
    ∧ (twoPageDialog.selectedVersionChangedEvent twoPageDialog.selectedPageIdx none).okEnabled
        = (none : Option BaseVersion).isSome
    ∧ (twoPageDialog.selectedPageChangedEvent 1).okEnabled
        = (twoPageDialog.pages[1]).selectedVersion.isSome :=
  selectedVersionChanged_frame twoPageDialog 1 none (by decide) (by decide)
    (by decide) (by decide)

/-- C10: the Refresh button reloads both version lists of exactly the
currently selected page: the page at every other index is untouched, the
selected page is replaced by its `loadList` image, and `loadList` reloads
both the major and the java version widget. -/
theorem refresh_only_selected (d : Java.InstallDialog) (i : Nat)
    (p : InstallLoaderPage) (hi : i ≠ d.selectedPageIdx) :
    (d.refreshClicked).pages[i]? = d.pages[i]?
    ∧ (d.refreshClicked).pages[d.selectedPageIdx]?
        = (d.pages[d.selectedPageIdx]?).map InstallLoaderPage.loadList
    ∧ (p.loadList).majorVersionSelect.loadCount = p.majorVersionSelect.loadCount + 1
    ∧ (p.loadList).javaVersionSelect.loadCount = p.javaVersionSelect.loadCount + 1 := by
  refine ⟨?_, ?_, rfl, rfl⟩
  · exact modifyPage_getElem?_other _ _ _ _ (fun e => hi e.symm)
  · exact modifyPage_getElem?_self _ _ _

/-- Witness for C10 at `twoPageDialog`. -/
theorem refresh_only_selected_witness :
    (twoPageDialog.refreshClicked).pages[1]? = twoPageDialog.pages[1]?
    ∧ (twoPageDialog.refreshClicked).pages[twoPageDialog.selectedPageIdx]?
        = (twoPageDialog.pages[twoPageDialog.selectedPageIdx]?).map InstallLoaderPage.loadList
    ∧ ((newInstallLoaderPage "a" "" "A").loadList).majorVersionSelect.loadCount
        = (newInstallLoaderPage "a" "" "A").majorVersionSelect.loadCount + 1
    ∧ ((newInstallLoaderPage "a" "" "A").loadList).javaVersionSelect.loadCount
        = (newInstallLoaderPage "a" "" "A").javaVersionSelect.loadCount + 1 :=
  refresh_only_selected twoPageDialog 1 (newInstallLoaderPage "a" "" "A") (by decide)
